import Mathlib

/-!
Verification of the gesture-driven formation visualizer.

Source files embedded here:
- `src/services/hand-recognition.service.ts` (gesture classifier, session loop)
- `src/components/visualizer/visualizer.component.ts` (formation catalog,
  formation state machine, motion integrator)

Modelling conventions:
- Coordinates are rationals (`ℚ`); the source works with IEEE doubles, and all
  geometric decisions are order comparisons of arithmetic expressions, which we
  embed exactly over `ℚ`.
- The source helper `dist` computes `Math.sqrt((x1-x2)^2 + (y1-y2)^2)` and every
  use of it is an order comparison (`dist < 0.05`, `dist tip wrist < dist pip
  wrist`).  Since `sqrt` is strictly monotone on nonnegative reals,
  `sqrt a < sqrt b ↔ a < b`; the embedding therefore compares squared planar
  distances (`distSq`), and the threshold `0.05` becomes `0.05^2 = 1/400`.
- JavaScript array access past the end yields `undefined`, and touching a field
  of `undefined` throws a `TypeError`; the embedding models landmark access by
  `l[i]?` and an exception by the `Option` value `none`.
- External collaborators (the `Math` library's transcendental functions,
  `Math.random`, and `THREE.Object3D.lookAt`) are parameters of the embedded
  functions, as the core treats them as opaque deterministic collaborators.
-/

namespace GestureViz

/-- A MediaPipe normalized landmark `{x, y, z}`
(`hand-recognition.service.ts`, type `NormalizedLandmark`). -/
structure Pt3 where
  x : ℚ
  y : ℚ
  z : ℚ
deriving DecidableEq

/-- A planar point `{x, y}` as stored in the `pinchCenter` signal. -/
structure Pt2 where
  x : ℚ
  y : ℚ
deriving DecidableEq

/-- `GestureType = 'NONE' | 'OPEN_PALM' | 'FIST' | 'PINCH'`
(`hand-recognition.service.ts` line 4). -/
inductive Gesture where
  | NONE
  | OPEN_PALM
  | FIST
  | PINCH
deriving DecidableEq

/-- The observable classifier state: the `currentGesture` and `pinchCenter`
signals of `HandRecognitionService` (lines 13 and 17). -/
structure HandState where
  gesture : Gesture
  pinchCenter : Option Pt2
deriving DecidableEq

/-- Initial signal values: `currentGesture = 'NONE'`, `pinchCenter = null`
(`hand-recognition.service.ts` lines 13, 17). -/
def initState : HandState := ⟨Gesture.NONE, none⟩

/-- Squared planar distance.  The source `dist` (lines 90-92) is
`Math.sqrt((p1.x-p2.x)^2 + (p1.y-p2.y)^2)`; every use is an order comparison,
embedded on squares (see the header note on `sqrt` monotonicity). -/
def distSq (p q : Pt3) : ℚ :=
  (p.x - q.x) ^ 2 + (p.y - q.y) ^ 2

/-- `isFingerClosed(tipIdx, pipIdx)` (lines 114-116):
`dist(landmarks[tipIdx], wrist) < dist(landmarks[pipIdx], wrist)` with
`wrist = landmarks[0]`.  `none` models the `TypeError` thrown when a needed
landmark is missing from the frame. -/
def isFingerClosed (lm : List Pt3) (tipIdx pipIdx : ℕ) : Option Bool :=
  match lm[0]?, lm[tipIdx]?, lm[pipIdx]? with
  | some w, some t, some p => some (decide (distSq t w < distSq p w))
  | _, _, _ => none

/-- `analyzeGesture(landmarks)` (`hand-recognition.service.ts` lines 73-137),
as a transformer of the observable classifier state.

Branch structure follows the source exactly:
1. pinch test `dist(thumbTip, indexTip) < 0.05` → set PINCH and the midpoint
   pinch center, return (lines 94-106);
2. otherwise `pinchCenter` is cleared (line 108), the four per-finger curl
   tests run (lines 118-121);
3. all four closed → FIST (lines 123-126);
4. all four open and not pinch → OPEN_PALM (lines 130-133);
5. otherwise nothing further is assigned: the `currentGesture.set('NONE')`
   on line 136 is commented out, so the previous gesture is retained.

`none` models the uncaught `TypeError` raised by dereferencing a missing
landmark (the source performs no landmark-count check).  A short frame that
throws during the curl tests has already cleared `pinchCenter`; the model
coalesces that partially-updated crash state into `none`, which is sound for
the invariants proved below because the crash also kills the prediction loop. -/
def analyzeGesture (st : HandState) (lm : List Pt3) : Option HandState :=
  match lm[4]?, lm[8]? with
  | some thumbTip, some indexTip =>
    if distSq thumbTip indexTip < 1/400 then
      some ⟨Gesture.PINCH,
        some ⟨(thumbTip.x + indexTip.x) / 2, (thumbTip.y + indexTip.y) / 2⟩⟩
    else
      match isFingerClosed lm 8 6, isFingerClosed lm 12 10,
            isFingerClosed lm 16 14, isFingerClosed lm 20 18 with
      | some indexClosed, some middleClosed, some ringClosed, some pinkyClosed =>
        if indexClosed && middleClosed && ringClosed && pinkyClosed then
          some ⟨Gesture.FIST, none⟩
        else if !indexClosed && !middleClosed && !ringClosed && !pinkyClosed
            && !(decide (distSq thumbTip indexTip < 1/400)) then
          some ⟨Gesture.OPEN_PALM, none⟩
        else
          some ⟨st.gesture, none⟩
      | _, _, _, _ => none
  | _, _ => none

/-- One detection cycle of `predictWebcam` (lines 52-68): `none` is a cycle
with no detected hand (classifier not invoked, state retained, lines 60-65);
`some lm` invokes `analyzeGesture`. -/
def step (st : HandState) (frame : Option (List Pt3)) : Option HandState :=
  match frame with
  | none => some st
  | some lm => analyzeGesture st lm

/-- A session: folding detection cycles from a state.  A crashed cycle
(`step = none`) aborts the whole run, as the uncaught exception kills the
`requestAnimationFrame` chain. -/
def run (st : HandState) : List (Option (List Pt3)) → Option HandState
  | [] => some st
  | f :: fs =>
    match step st f with
    | none => none
    | some st2 => run st2 fs

/-- Origin landmark used to pad concrete test frames. -/
def z0 : Pt3 := ⟨0, 0, 0⟩

/-- A 21-landmark frame realizing the spec's end-to-end pinch scenario:
thumb tip `(0.50, 0.50)`, index tip `(0.51, 0.50)`. -/
def pinchFrame : List Pt3 :=
  [z0, z0, z0, z0, ⟨1/2, 1/2, 0⟩, z0, z0, z0, ⟨51/100, 1/2, 0⟩, z0, z0,
   z0, z0, z0, z0, z0, z0, z0, z0, z0, z0]

/-- A 21-landmark FIST frame: wrist at the origin, thumb tip far from the
index tip, and every non-thumb fingertip strictly closer to the wrist than
its pip joint. -/
def fistFrame : List Pt3 :=
  [⟨0, 0, 0⟩, z0, z0, z0, ⟨1, 0, 0⟩, z0, ⟨0, 2/10, 0⟩, z0, ⟨0, 1/10, 0⟩, z0,
   ⟨0, 3/10, 0⟩, z0, ⟨0, 1/10, 0⟩, z0, ⟨0, 2/10, 0⟩, z0, ⟨0, 1/10, 0⟩, z0,
   ⟨0, 2/10, 0⟩, z0, ⟨0, 1/10, 0⟩]

/-- A 21-landmark ambiguous frame: no pinch, index/ring/pinky closed but the
middle finger open, so neither the FIST nor the OPEN_PALM test matches. -/
def ambFrame : List Pt3 :=
  [⟨0, 0, 0⟩, z0, z0, z0, ⟨1, 0, 0⟩, z0, ⟨0, 2/10, 0⟩, z0, ⟨0, 1/10, 0⟩, z0,
   ⟨0, 3/10, 0⟩, z0, ⟨0, 5/10, 0⟩, z0, ⟨0, 2/10, 0⟩, z0, ⟨0, 1/10, 0⟩, z0,
   ⟨0, 2/10, 0⟩, z0, ⟨0, 1/10, 0⟩]

/-- A malformed frame of only 4 landmarks (indices 0-3): the classifier needs
`landmarks[4]` and `landmarks[8]`, which are out of range here. -/
def shortFrame : List Pt3 := [z0, z0, z0, z0]

/-- The ambient `Math` library of the host platform: the transcendental
functions and the constant `π` used by `createObjects`
(`visualizer.component.ts` lines 107-127).  They are deterministic external
collaborators of the core, so the embedding abstracts them as parameters. -/
structure MathLib where
  sqrt : ℚ → ℚ
  cos : ℚ → ℚ
  sin : ℚ → ℚ
  acos : ℚ → ℚ
  pi : ℚ

/-- A `THREE.Vector3`. -/
structure Vec3 where
  x : ℚ
  y : ℚ
  z : ℚ
deriving DecidableEq

/-- A `THREE.Euler` triple of per-axis angles. -/
structure Euler3 where
  x : ℚ
  y : ℚ
  z : ℚ
deriving DecidableEq

/-- Zero vector, the out-of-range default for list reads (unreachable under
the session invariant that all arrays share length `imageCount`). -/
def v0 : Vec3 := ⟨0, 0, 0⟩

/-- Scatter generation (`createObjects`, lines 97-102): for each `i`, three
consecutive `Math.random()` draws give
`x, y, z = random()*4000 - 2000`.  The random stream `r` is indexed in draw
order: object `i` consumes draws `3i, 3i+1, 3i+2`. -/
def scatterGen (r : ℕ → ℚ) (N : ℕ) : List Vec3 :=
  (List.range N).map fun i =>
    ⟨r (3 * i) * 4000 - 2000, r (3 * i + 1) * 4000 - 2000,
     r (3 * i + 2) * 4000 - 2000⟩

/-- Tree generation (`createObjects`, lines 106-117): spiral shell
`phi = acos(-1 + 2i/N)`, `theta = sqrt(N·π)·phi`, radius 800, linear vertical
stacking `y = 20i - 500`.  Consumes no randomness. -/
def treeGen (M : MathLib) (N : ℕ) : List Vec3 :=
  (List.range N).map fun i =>
    let phi := M.acos (-1 + (2 * (i : ℚ)) / (N : ℚ))
    let theta := M.sqrt ((N : ℚ) * M.pi) * phi
    ⟨800 * M.cos theta * M.sin phi, (i : ℚ) * 20 - 500,
     800 * M.sin theta * M.sin phi⟩

/-- Focus generation (`createObjects`, lines 121-131): cylindrical arc grid
`theta = 0.175·i + π`, `y = -floor(i/10)·180 + 400`, radius 1200.  Consumes no
randomness. -/
def focusGen (M : MathLib) (N : ℕ) : List Vec3 :=
  (List.range N).map fun i =>
    let row : ℕ := i / 10
    let theta := (i : ℚ) * (175/1000) + M.pi
    ⟨M.cos theta * 1200, -((row : ℚ) * 180) + 400,
     M.sin theta * 1200⟩

/-- The `targets` record of `VisualizerComponent` (lines 33-37). -/
structure Targets where
  scatter : List Vec3
  tree : List Vec3
  focus : List Vec3
deriving DecidableEq

/-- The formation-catalog part of `createObjects` (lines 90-131): all three
formations precomputed once from the object count. -/
def createTargets (M : MathLib) (r : ℕ → ℚ) (N : ℕ) : Targets :=
  ⟨scatterGen r N, treeGen M N, focusGen M N⟩

/-- One managed mesh: current pose plus the `userData` target pose
(lines 149-160). -/
structure Obj where
  position : Vec3
  rotation : Euler3
  targetPosition : Vec3
  targetRotation : Euler3
deriving DecidableEq

/-- Default object for out-of-range list reads. -/
def defaultObj : Obj := ⟨v0, ⟨0, 0, 0⟩, v0, ⟨0, 0, 0⟩⟩

/-- The visualizer state touched by the formation state machine: the immutable
formation catalog, the meshes, the gesture value last seen by the reactive
effect (the `currentGesture` signal value it most recently observed), and a
cursor into the `Math.random` stream. -/
structure VisState where
  targets : Targets
  meshes : List Obj
  lastGesture : Gesture
  rngIdx : ℕ

/-- Formation selected by `transitionTo` (lines 171-183): PINCH → focus,
FIST → tree, OPEN_PALM (and the initial default) → scatter. -/
def transTargetSet (g : Gesture) (t : Targets) : List Vec3 :=
  match g with
  | Gesture.PINCH => t.focus
  | Gesture.FIST => t.tree
  | _ => t.scatter

/-- The `lookAtCenter` flag of `transitionTo` (lines 172-183). -/
def transLookAt (g : Gesture) : Bool :=
  match g with
  | Gesture.PINCH => true
  | Gesture.FIST => true
  | _ => false

/-- The point `(0, 0, 2500)` that objects are rotated to face — the camera's
approximate resting position (`dummy.lookAt(0, 0, 2500)`, line 195; the camera
is created at `z = 2500`, line 74). -/
def cameraRef : Vec3 := ⟨0, 0, 2500⟩

/-- `transitionTo(gesture)` (`visualizer.component.ts` lines 168-202).

`lookAt pos target` abstracts the external `THREE.Object3D.lookAt`
computation: the Euler rotation that points an object placed at `pos` toward
`target`.  `rand` abstracts the `Math.random` stream; the OPEN_PALM branch
consumes two draws per object (`targetRot.set(random()*π, random()*π, 0)`,
line 198), so the stream cursor advances by `2·N` in that branch only.

`gesture === 'NONE'` returns immediately (line 169), touching nothing. -/
def transitionTo (M : MathLib) (lookAt : Vec3 → Vec3 → Euler3) (rand : ℕ → ℚ)
    (g : Gesture) (vs : VisState) : VisState :=
  if g = Gesture.NONE then vs
  else
    let ts := transTargetSet g vs.targets
    { vs with
      meshes := vs.meshes.mapIdx fun i obj =>
        { obj with
          targetPosition := ts.getD i v0,
          targetRotation :=
            if transLookAt g then lookAt (ts.getD i v0) cameraRef
            else ⟨rand (vs.rngIdx + 2 * i) * M.pi,
                  rand (vs.rngIdx + 2 * i + 1) * M.pi, 0⟩ },
      rngIdx := vs.rngIdx +
        (if transLookAt g then 0 else 2 * vs.meshes.length) }

/-- The reactive gesture propagation (`constructor`, lines 39-45): the
framework effect observing the `currentGesture` signal re-runs `transitionTo`
only when the signal's value actually changes (signals compare with
`Object.is` and skip notification on equal values), so a repeated identical
gesture never reaches `transitionTo`. -/
def onGesture (M : MathLib) (lookAt : Vec3 → Vec3 → Euler3) (rand : ℕ → ℚ)
    (g : Gesture) (vs : VisState) : VisState :=
  if g = vs.lastGesture then vs
  else { transitionTo M lookAt rand g vs with lastGesture := g }

/-- The per-component exponential smoothing of `animate` (lines 207-220):
`current += (target - current) * delta` with `delta = 0.05`, the formula of
both `Vector3.lerp` (line 215) and the explicit rotation updates
(lines 218-220). -/
def lerp1 (c t : ℚ) : ℚ := c + (t - c) * (5/100)

/-- One `animate` tick for a single managed object (lines 210-221): positions
and rotations move toward their targets axis-by-axis; the target pose is only
read. -/
def animateObj (o : Obj) : Obj :=
  { o with
    position := ⟨lerp1 o.position.x o.targetPosition.x,
                 lerp1 o.position.y o.targetPosition.y,
                 lerp1 o.position.z o.targetPosition.z⟩,
    rotation := ⟨lerp1 o.rotation.x o.targetRotation.x,
                 lerp1 o.rotation.y o.targetRotation.y,
                 lerp1 o.rotation.z o.targetRotation.z⟩ }

/-- One `animate` tick over all managed objects (the camera-drift lines
224-227 act on external camera state, not on the managed-object registers
modelled here). -/
def animate (vs : VisState) : VisState :=
  { vs with meshes := vs.meshes.map animateObj }

/-- A concrete stand-in for the platform math library, used by witnesses. -/
def M0 : MathLib := ⟨fun q => q, fun q => q, fun q => q, fun q => q, 22/7⟩

/-- A concrete stand-in for the external look-at computation, used by
witnesses. -/
def la0 : Vec3 → Vec3 → Euler3 := fun p q => ⟨p.x + q.x, p.y + q.y, p.z + q.z⟩

/-- A concrete random stream with all draws in `[0, 1)`. -/
def rHalf : ℕ → ℚ := fun _ => 1/2

/-- A second concrete random stream, distinct from `rHalf`. -/
def rQuarter : ℕ → ℚ := fun _ => 1/4

/-- A concrete one-object visualizer state, used by witnesses. -/
def vs0 : VisState :=
  ⟨⟨[⟨1, 2, 3⟩], [⟨4, 5, 6⟩], [⟨7, 8, 9⟩]⟩, [defaultObj], Gesture.NONE, 0⟩

/-- `getD` through `mapIdx` at an in-range index. -/
theorem getD_mapIdx {α β : Type} (l : List α) (f : ℕ → α → β) (i : ℕ)
    (hi : i < l.length) (d : β) (d2 : α) :
    (l.mapIdx f).getD i d = f i (l.getD i d2) := by
  rw [List.getD_eq_getElem _ _ (by simpa using hi),
      List.getD_eq_getElem _ _ hi]
  exact List.getElem_mapIdx

/-- The mesh at an in-range index after a non-NONE `transitionTo`. -/
theorem transitionTo_getD (M : MathLib) (lookAt : Vec3 → Vec3 → Euler3)
    (rand : ℕ → ℚ) (g : Gesture) (vs : VisState) (i : ℕ)
    (hg : ¬ g = Gesture.NONE) (hi : i < vs.meshes.length) :
    (transitionTo M lookAt rand g vs).meshes.getD i defaultObj =
      { vs.meshes.getD i defaultObj with
        targetPosition := (transTargetSet g vs.targets).getD i v0,
        targetRotation :=
          if transLookAt g then
            lookAt ((transTargetSet g vs.targets).getD i v0) cameraRef
          else ⟨rand (vs.rngIdx + 2 * i) * M.pi,
                rand (vs.rngIdx + 2 * i + 1) * M.pi, 0⟩ } := by
  simp only [transitionTo, if_neg hg]
  exact getD_mapIdx vs.meshes _ i hi defaultObj defaultObj

/-- Any successful classification with `pinchCenter` present carries gesture
PINCH: the pinch branch is the only one that stores a center, and every other
branch clears it. -/
theorem analyzeGesture_center_pinch (st : HandState) (lm : List Pt3)
    (st2 : HandState) (h : analyzeGesture st lm = some st2) :
    st2.pinchCenter.isSome → st2.gesture = Gesture.PINCH := by
  unfold analyzeGesture at h
  repeat' split at h
  all_goals first
    | (cases h; intro h2; simp_all)
    | simp_all

/-- The center-implies-pinch property is preserved by whole sessions. -/
theorem run_center_pinch (frames : List (Option (List Pt3))) :
    ∀ st st2 : HandState, (st.pinchCenter.isSome → st.gesture = Gesture.PINCH) →
      run st frames = some st2 →
      (st2.pinchCenter.isSome → st2.gesture = Gesture.PINCH) := by
  induction frames with
  | nil =>
    intro st st2 hst h
    simp only [run] at h
    cases h
    exact hst
  | cons f fs ih =>
    intro st st2 hst h
    simp only [run, step] at h
    cases f with
    | none => exact ih st st2 hst h
    | some lm =>
      simp only at h
      cases hag : analyzeGesture st lm with
      | none => rw [hag] at h; cases h
      | some st1 =>
        rw [hag] at h
        exact ih st1 st2 (analyzeGesture_center_pinch st lm st1 hag) h

/-- Claim C2: whenever the planar squared distance between the thumb tip
(landmark 4) and the index tip (landmark 8) is below the pinch threshold,
`analyzeGesture` emits PINCH with `pinchCenter` the planar midpoint of the two
tips, regardless of every other landmark (pinch has first priority). -/
theorem classify_pinch_priority (st : HandState) (lm : List Pt3)
    (thumbTip indexTip : Pt3)
    (h4 : lm[4]? = some thumbTip) (h8 : lm[8]? = some indexTip)
    (hd : distSq thumbTip indexTip < 1/400) :
    analyzeGesture st lm = some ⟨Gesture.PINCH,
      some ⟨(thumbTip.x + indexTip.x) / 2, (thumbTip.y + indexTip.y) / 2⟩⟩ := by
  simp only [analyzeGesture, h4, h8]
  rw [if_pos hd]

/-- Witness for C2, the spec's end-to-end pinch scenario: thumb tip
`(0.50, 0.50)`, index tip `(0.51, 0.50)` gives PINCH with center
`(0.505, 0.50)`. -/
theorem classify_pinch_priority_witness :
    analyzeGesture initState pinchFrame =
      some ⟨Gesture.PINCH, some ⟨101/200, 1/2⟩⟩ := by
  have h := classify_pinch_priority initState pinchFrame ⟨1/2, 1/2, 0⟩
    ⟨51/100, 1/2, 0⟩ (by rfl) (by rfl) (by norm_num [distSq])
  rw [h]
  norm_num

/-- Claim C3 (behaviour at the failing input): on a malformed 4-landmark
frame the classifier dereferences the missing thumb-tip/index-tip landmarks;
`none` is the resulting uncaught `TypeError`, not a graceful rejection. -/
theorem malformed_frame_crash :
    analyzeGesture initState shortFrame = none := rfl

/-- Claim C1 (amended): on an ambiguous frame — classification succeeds, the
pinch test fails, and the four curl flags are neither all set nor all clear —
`analyzeGesture` retains the previous gesture (the `set('NONE')` statement is
commented out in the source) and clears the pinch center. -/
theorem classify_ambiguous_retains_gesture (st : HandState) (lm : List Pt3)
    (thumbTip indexTip : Pt3) (ic mc rc pc : Bool)
    (h4 : lm[4]? = some thumbTip) (h8 : lm[8]? = some indexTip)
    (hd : ¬ distSq thumbTip indexTip < 1/400)
    (h86 : isFingerClosed lm 8 6 = some ic)
    (h1210 : isFingerClosed lm 12 10 = some mc)
    (h1614 : isFingerClosed lm 16 14 = some rc)
    (h2018 : isFingerClosed lm 20 18 = some pc)
    (hnf : (ic && mc && rc && pc) = false)
    (hno : (!ic && !mc && !rc && !pc) = false) :
    analyzeGesture st lm = some ⟨st.gesture, none⟩ := by
  simp only [analyzeGesture, h4, h8, h86, h1210, h1614, h2018]
  rw [if_neg hd]
  simp [hnf, hno]

/-- Witness for the amended C1: the concrete ambiguous frame with previous
gesture FIST yields gesture FIST again (not NONE) and a cleared center. -/
theorem classify_ambiguous_retains_gesture_witness :
    analyzeGesture ⟨Gesture.FIST, none⟩ ambFrame =
      some ⟨Gesture.FIST, none⟩ :=
  classify_ambiguous_retains_gesture ⟨Gesture.FIST, none⟩ ambFrame
    ⟨1, 0, 0⟩ ⟨0, 1/10, 0⟩ true false true true
    (by rfl) (by rfl) (by norm_num [distSq])
    (by norm_num [isFingerClosed, ambFrame, distSq])
    (by norm_num [isFingerClosed, ambFrame, distSq])
    (by norm_num [isFingerClosed, ambFrame, distSq])
    (by norm_num [isFingerClosed, ambFrame, distSq])
    (by rfl) (by rfl)

/-- Counterexample to C1 as stated: the frame `ambFrame` satisfies every
ambiguity hypothesis of the claim (pinch distance over threshold, not all four
fingers closed, not all four open), it is reached with previous gesture FIST,
and classifying it emits FIST — not NONE. -/
theorem classify_ambiguous_cex :
    ¬ distSq ⟨1, 0, 0⟩ ⟨0, 1/10, 0⟩ < 1/400 ∧
    isFingerClosed ambFrame 8 6 = some true ∧
    isFingerClosed ambFrame 12 10 = some false ∧
    isFingerClosed ambFrame 16 14 = some true ∧
    isFingerClosed ambFrame 20 18 = some true ∧
    run initState [some fistFrame, some ambFrame] =
      some ⟨Gesture.FIST, none⟩ ∧
    Gesture.FIST ≠ Gesture.NONE := by
  refine ⟨by norm_num [distSq], ?_, ?_, ?_, ?_, ?_, by decide⟩
  · norm_num [isFingerClosed, ambFrame, distSq]
  · norm_num [isFingerClosed, ambFrame, distSq]
  · norm_num [isFingerClosed, ambFrame, distSq]
  · norm_num [isFingerClosed, ambFrame, distSq]
  · norm_num [run, step, analyzeGesture, isFingerClosed, fistFrame, ambFrame,
      distSq, initState]

/-- Claim C4 (amended): throughout every non-crashing session started from the
initial state, a present (non-null) pinch center implies the current gesture
is PINCH.  (The converse fails: see the counterexample.) -/
theorem pinch_center_only_if_pinch (frames : List (Option (List Pt3)))
    (st : HandState) (h : run initState frames = some st) :
    st.pinchCenter.isSome → st.gesture = Gesture.PINCH :=
  run_center_pinch frames initState st (by simp [initState]) h

/-- Witness for the amended C4 on a one-frame session ending in PINCH. -/
theorem pinch_center_only_if_pinch_witness :
    (⟨Gesture.PINCH, some ⟨101/200, 1/2⟩⟩ : HandState).gesture =
      Gesture.PINCH :=
  pinch_center_only_if_pinch [some pinchFrame]
    ⟨Gesture.PINCH, some ⟨101/200, 1/2⟩⟩
    (by norm_num [run, step, analyzeGesture, pinchFrame, distSq, initState])
    (by rfl)

/-- Counterexample to C4 as stated: after a pinch frame followed by an
ambiguous frame, the session reaches gesture PINCH with a null pinch center,
so center-present is not equivalent to gesture-is-PINCH. -/
theorem pinch_center_iff_cex :
    run initState [some pinchFrame, some ambFrame] =
      some ⟨Gesture.PINCH, none⟩ ∧
    ¬ (∀ st : HandState,
        run initState [some pinchFrame, some ambFrame] = some st →
          (st.pinchCenter.isSome ↔ st.gesture = Gesture.PINCH)) := by
  have hrun : run initState [some pinchFrame, some ambFrame] =
      some ⟨Gesture.PINCH, none⟩ := by
    norm_num [run, step, analyzeGesture, isFingerClosed, pinchFrame, ambFrame,
      distSq, initState]
  refine ⟨hrun, fun hall => ?_⟩
  have h2 := (hall ⟨Gesture.PINCH, none⟩ hrun).mpr rfl
  simp at h2

/-- Claim C5: on every accepted transition, FIST assigns the Tree formation
and PINCH the Focus formation, each object's target rotation being the
look-at orientation toward the camera reference point `(0, 0, 2500)`;
OPEN_PALM assigns the Scatter formation with the two randomized Euler
components; in all cases `targetPosition[i]` becomes the selected formation's
`i`-th point. -/
theorem gesture_formation_assignment (M : MathLib)
    (la : Vec3 → Vec3 → Euler3) (r : ℕ → ℚ) (vs : VisState) (i : ℕ)
    (hi : i < vs.meshes.length) :
    (((transitionTo M la r Gesture.FIST vs).meshes.getD i
          defaultObj).targetPosition = vs.targets.tree.getD i v0 ∧
      ((transitionTo M la r Gesture.FIST vs).meshes.getD i
          defaultObj).targetRotation =
        la (vs.targets.tree.getD i v0) cameraRef) ∧
    (((transitionTo M la r Gesture.PINCH vs).meshes.getD i
          defaultObj).targetPosition = vs.targets.focus.getD i v0 ∧
      ((transitionTo M la r Gesture.PINCH vs).meshes.getD i
          defaultObj).targetRotation =
        la (vs.targets.focus.getD i v0) cameraRef) ∧
    (((transitionTo M la r Gesture.OPEN_PALM vs).meshes.getD i
          defaultObj).targetPosition = vs.targets.scatter.getD i v0 ∧
      ((transitionTo M la r Gesture.OPEN_PALM vs).meshes.getD i
          defaultObj).targetRotation =
        ⟨r (vs.rngIdx + 2 * i) * M.pi,
         r (vs.rngIdx + 2 * i + 1) * M.pi, 0⟩) := by
  refine ⟨⟨?_, ?_⟩, ⟨?_, ?_⟩, ⟨?_, ?_⟩⟩ <;>
    rw [transitionTo_getD M la r _ vs i (by decide) hi] <;> rfl

/-- Witness for C5 at a concrete one-object state. -/
theorem gesture_formation_assignment_witness :
    (((transitionTo M0 la0 rHalf Gesture.FIST vs0).meshes.getD 0
          defaultObj).targetPosition = vs0.targets.tree.getD 0 v0 ∧
      ((transitionTo M0 la0 rHalf Gesture.FIST vs0).meshes.getD 0
          defaultObj).targetRotation =
        la0 (vs0.targets.tree.getD 0 v0) cameraRef) ∧
    (((transitionTo M0 la0 rHalf Gesture.PINCH vs0).meshes.getD 0
          defaultObj).targetPosition = vs0.targets.focus.getD 0 v0 ∧
      ((transitionTo M0 la0 rHalf Gesture.PINCH vs0).meshes.getD 0
          defaultObj).targetRotation =
        la0 (vs0.targets.focus.getD 0 v0) cameraRef) ∧
    (((transitionTo M0 la0 rHalf Gesture.OPEN_PALM vs0).meshes.getD 0
          defaultObj).targetPosition = vs0.targets.scatter.getD 0 v0 ∧
      ((transitionTo M0 la0 rHalf Gesture.OPEN_PALM vs0).meshes.getD 0
          defaultObj).targetRotation =
        ⟨rHalf (vs0.rngIdx + 2 * 0) * M0.pi,
         rHalf (vs0.rngIdx + 2 * 0 + 1) * M0.pi, 0⟩) :=
  gesture_formation_assignment M0 la0 rHalf vs0 0 (by simp [vs0])

/-- Claim C6: the reactive gesture propagation is idempotent — delivering the
same gesture value twice in a row leaves the visualizer state (in particular
every target pose) exactly as after delivering it once, because the signal
effect does not re-run on an unchanged value. -/
theorem repeated_gesture_idempotent (M : MathLib)
    (la : Vec3 → Vec3 → Euler3) (r : ℕ → ℚ) (g : Gesture) (vs : VisState) :
    onGesture M la r g (onGesture M la r g vs) = onGesture M la r g vs := by
  by_cases h : g = vs.lastGesture
  · simp [onGesture, h]
  · simp [onGesture, h]

/-- Claim C7: `transitionTo('NONE')` returns immediately, leaving the whole
visualizer state — every object's target position and target rotation —
unchanged. -/
theorem none_transition_noop (M : MathLib) (la : Vec3 → Vec3 → Euler3)
    (r : ℕ → ℚ) (vs : VisState) :
    transitionTo M la r Gesture.NONE vs = vs := by
  simp [transitionTo]

/-- One smoothing step contracts the distance to the target by the factor
`1 - 0.05 = 19/20` exactly. -/
theorem lerp1_abs (u t : ℚ) : |lerp1 u t - t| = |u - t| * (19/20) := by
  have h : lerp1 u t - t = (u - t) * (19/20) := by unfold lerp1; ring
  rw [h, abs_mul, abs_of_nonneg (by norm_num : (0:ℚ) ≤ 19/20)]

/-- Closed form of the distance to a fixed target after `k` smoothing steps. -/
theorem lerp1_iter_abs (t c : ℚ) (k : ℕ) :
    |(fun u => lerp1 u t)^[k] c - t| = |c - t| * (19/20) ^ k := by
  induction k with
  | zero => simp
  | succ n ih =>
    rw [Function.iterate_succ_apply']
    show |lerp1 ((fun u => lerp1 u t)^[n] c) t - t| = |c - t| * (19/20) ^ (n + 1)
    rw [lerp1_abs, ih, pow_succ, mul_assoc]

/-- Convergence bound for the scalar smoothing iteration. -/
theorem lerp1_iter_le (t c : ℚ) (k : ℕ) :
    |(fun u => lerp1 u t)^[k] c - t| ≤ |c - t| * (1 - 5/100) ^ k := by
  rw [lerp1_iter_abs]
  norm_num

/-- Per-tick monotonicity of the scalar smoothing iteration. -/
theorem lerp1_iter_mono (t c : ℚ) (k : ℕ) :
    |(fun u => lerp1 u t)^[k + 1] c - t| ≤ |(fun u => lerp1 u t)^[k] c - t| := by
  rw [lerp1_iter_abs, lerp1_iter_abs, pow_succ, ← mul_assoc]
  exact mul_le_of_le_one_right (by positivity) (by norm_num)

/-- Closed form of iterated `animate` ticks on one object: each of the six
pose components follows the scalar smoothing iteration toward its own fixed
target component, and the target pose itself never moves. -/
theorem animateObj_iter (o : Obj) (k : ℕ) :
    animateObj^[k] o =
      { o with
        position :=
          ⟨(fun u => lerp1 u o.targetPosition.x)^[k] o.position.x,
           (fun u => lerp1 u o.targetPosition.y)^[k] o.position.y,
           (fun u => lerp1 u o.targetPosition.z)^[k] o.position.z⟩,
        rotation :=
          ⟨(fun u => lerp1 u o.targetRotation.x)^[k] o.rotation.x,
           (fun u => lerp1 u o.targetRotation.y)^[k] o.rotation.y,
           (fun u => lerp1 u o.targetRotation.z)^[k] o.rotation.z⟩ } := by
  induction k with
  | zero => simp
  | succ n ih =>
    rw [Function.iterate_succ_apply', ih]
    simp [animateObj, Function.iterate_succ_apply']

/-- Claim C8: with a fixed target pose, after `k` ticks every pose component
is within `(1 - 0.05)^k` times its initial distance of the corresponding
target component, and each tick's distance to the target is monotonically
non-increasing (no overshoot). -/
theorem motion_integrator_convergence (o : Obj) (k : ℕ) :
    (|(animateObj^[k] o).position.x - o.targetPosition.x| ≤
        |o.position.x - o.targetPosition.x| * (1 - 5/100) ^ k ∧
      |(animateObj^[k] o).position.y - o.targetPosition.y| ≤
        |o.position.y - o.targetPosition.y| * (1 - 5/100) ^ k ∧
      |(animateObj^[k] o).position.z - o.targetPosition.z| ≤
        |o.position.z - o.targetPosition.z| * (1 - 5/100) ^ k ∧
      |(animateObj^[k] o).rotation.x - o.targetRotation.x| ≤
        |o.rotation.x - o.targetRotation.x| * (1 - 5/100) ^ k ∧
      |(animateObj^[k] o).rotation.y - o.targetRotation.y| ≤
        |o.rotation.y - o.targetRotation.y| * (1 - 5/100) ^ k ∧
      |(animateObj^[k] o).rotation.z - o.targetRotation.z| ≤
        |o.rotation.z - o.targetRotation.z| * (1 - 5/100) ^ k) ∧
    (|(animateObj^[k + 1] o).position.x - o.targetPosition.x| ≤
        |(animateObj^[k] o).position.x - o.targetPosition.x| ∧
      |(animateObj^[k + 1] o).position.y - o.targetPosition.y| ≤
        |(animateObj^[k] o).position.y - o.targetPosition.y| ∧
      |(animateObj^[k + 1] o).position.z - o.targetPosition.z| ≤
        |(animateObj^[k] o).position.z - o.targetPosition.z| ∧
      |(animateObj^[k + 1] o).rotation.x - o.targetRotation.x| ≤
        |(animateObj^[k] o).rotation.x - o.targetRotation.x| ∧
      |(animateObj^[k + 1] o).rotation.y - o.targetRotation.y| ≤
        |(animateObj^[k] o).rotation.y - o.targetRotation.y| ∧
      |(animateObj^[k + 1] o).rotation.z - o.targetRotation.z| ≤
        |(animateObj^[k] o).rotation.z - o.targetRotation.z|) := by
  simp only [animateObj_iter]
  exact ⟨⟨lerp1_iter_le _ _ _, lerp1_iter_le _ _ _, lerp1_iter_le _ _ _,
      lerp1_iter_le _ _ _, lerp1_iter_le _ _ _, lerp1_iter_le _ _ _⟩,
    ⟨lerp1_iter_mono _ _ _, lerp1_iter_mono _ _ _, lerp1_iter_mono _ _ _,
      lerp1_iter_mono _ _ _, lerp1_iter_mono _ _ _, lerp1_iter_mono _ _ _⟩⟩

/-- Claim C9: the Tree generator is deterministic — it does not consume the
random stream, so any two catalog computations agree on it — while the
Scatter generator yields exactly `N` points, all with coordinates in
`[-2000, 2000]` whenever the random draws lie in `[0, 1)` (the `Math.random`
contract). -/
theorem formation_catalog_properties (M : MathLib) (r r2 : ℕ → ℚ) (N : ℕ)
    (hr : ∀ n, 0 ≤ r n ∧ r n < 1) :
    (createTargets M r N).tree = (createTargets M r2 N).tree ∧
    (createTargets M r N).scatter.length = N ∧
    ∀ p ∈ (createTargets M r N).scatter,
      (-2000 ≤ p.x ∧ p.x ≤ 2000) ∧ (-2000 ≤ p.y ∧ p.y ≤ 2000) ∧
      (-2000 ≤ p.z ∧ p.z ≤ 2000) := by
  refine ⟨rfl, by simp [createTargets, scatterGen], ?_⟩
  intro p hp
  simp only [createTargets, scatterGen, List.mem_map, List.mem_range] at hp
  obtain ⟨i, hi, rfl⟩ := hp
  have hx := hr (3 * i)
  have hy := hr (3 * i + 1)
  have hz := hr (3 * i + 2)
  refine ⟨⟨?_, ?_⟩, ⟨?_, ?_⟩, ⟨?_, ?_⟩⟩
  · show -2000 ≤ r (3 * i) * 4000 - 2000
    linarith [hx.1]
  · show r (3 * i) * 4000 - 2000 ≤ 2000
    linarith [hx.2]
  · show -2000 ≤ r (3 * i + 1) * 4000 - 2000
    linarith [hy.1]
  · show r (3 * i + 1) * 4000 - 2000 ≤ 2000
    linarith [hy.2]
  · show -2000 ≤ r (3 * i + 2) * 4000 - 2000
    linarith [hz.1]
  · show r (3 * i + 2) * 4000 - 2000 ≤ 2000
    linarith [hz.2]

/-- Witness for C9 with two distinct concrete random streams and `N = 2`. -/
theorem formation_catalog_properties_witness :
    (createTargets M0 rHalf 2).tree = (createTargets M0 rQuarter 2).tree ∧
    (createTargets M0 rHalf 2).scatter.length = 2 ∧
    ∀ p ∈ (createTargets M0 rHalf 2).scatter,
      (-2000 ≤ p.x ∧ p.x ≤ 2000) ∧ (-2000 ≤ p.y ∧ p.y ≤ 2000) ∧
      (-2000 ≤ p.z ∧ p.z ≤ 2000) :=
  formation_catalog_properties M0 rHalf rQuarter 2
    (fun n => by norm_num [rHalf])

/-- Claim C10: on an OPEN_PALM transition the assigned target rotation has
`z`-component exactly `0`, and its `x` and `y` components are each a random
draw scaled by `π`, hence in `[0, π)` under the `Math.random` contract. -/
theorem open_palm_rotation_ranges (M : MathLib) (la : Vec3 → Vec3 → Euler3)
    (r : ℕ → ℚ) (vs : VisState) (i : ℕ) (hi : i < vs.meshes.length)
    (hr : ∀ n, 0 ≤ r n ∧ r n < 1) (hpi : 0 < M.pi) :
    ((transitionTo M la r Gesture.OPEN_PALM vs).meshes.getD i
        defaultObj).targetRotation.z = 0 ∧
    (0 ≤ ((transitionTo M la r Gesture.OPEN_PALM vs).meshes.getD i
        defaultObj).targetRotation.x ∧
      ((transitionTo M la r Gesture.OPEN_PALM vs).meshes.getD i
        defaultObj).targetRotation.x < M.pi) ∧
    (0 ≤ ((transitionTo M la r Gesture.OPEN_PALM vs).meshes.getD i
        defaultObj).targetRotation.y ∧
      ((transitionTo M la r Gesture.OPEN_PALM vs).meshes.getD i
        defaultObj).targetRotation.y < M.pi) := by
  rw [transitionTo_getD M la r _ vs i (by decide) hi]
  refine ⟨rfl, ⟨?_, ?_⟩, ⟨?_, ?_⟩⟩
  · show 0 ≤ r (vs.rngIdx + 2 * i) * M.pi
    exact mul_nonneg (hr _).1 (le_of_lt hpi)
  · show r (vs.rngIdx + 2 * i) * M.pi < M.pi
    calc r (vs.rngIdx + 2 * i) * M.pi < 1 * M.pi :=
          mul_lt_mul_of_pos_right (hr _).2 hpi
      _ = M.pi := one_mul _
  · show 0 ≤ r (vs.rngIdx + 2 * i + 1) * M.pi
    exact mul_nonneg (hr _).1 (le_of_lt hpi)
  · show r (vs.rngIdx + 2 * i + 1) * M.pi < M.pi
    calc r (vs.rngIdx + 2 * i + 1) * M.pi < 1 * M.pi :=
          mul_lt_mul_of_pos_right (hr _).2 hpi
      _ = M.pi := one_mul _

/-- Witness for C10 at a concrete one-object state. -/
theorem open_palm_rotation_ranges_witness :
    ((transitionTo M0 la0 rHalf Gesture.OPEN_PALM vs0).meshes.getD 0
        defaultObj).targetRotation.z = 0 ∧
    (0 ≤ ((transitionTo M0 la0 rHalf Gesture.OPEN_PALM vs0).meshes.getD 0
        defaultObj).targetRotation.x ∧
      ((transitionTo M0 la0 rHalf Gesture.OPEN_PALM vs0).meshes.getD 0
        defaultObj).targetRotation.x < M0.pi) ∧
    (0 ≤ ((transitionTo M0 la0 rHalf Gesture.OPEN_PALM vs0).meshes.getD 0
        defaultObj).targetRotation.y ∧
      ((transitionTo M0 la0 rHalf Gesture.OPEN_PALM vs0).meshes.getD 0
        defaultObj).targetRotation.y < M0.pi) :=
  open_palm_rotation_ranges M0 la0 rHalf vs0 0 (by simp [vs0])
    (fun n => by norm_num [rHalf]) (by norm_num [M0])

end GestureViz
